import Mathlib

/-!
Shallow embedding of the Selective-Repeat ARQ implementation in `src/sr.c`
(sender side `A_output`, `A_input`, `A_timerinterrupt`, `A_init`; receiver
side `B_input`, `B_init`; shared checksum routines), together with theorems
settling the specification claims about it.

Modelling conventions:
* C `int` is `Int`; C `%` agrees with `Int.emod` whenever the left operand is
  nonnegative, which holds for every `%` expression the embedded code
  evaluates on the states the theorems talk about (the one C expression with
  a possibly negative left operand, `(windowlast + 1) % WINDOWSIZE` with
  `windowlast = -1`, gives `0` under both conventions).
* The fixed C arrays (`buffer[WINDOWSIZE]`, `ack_received[SEQSPACE]`, ...)
  are total functions `Int → _`; the C code indexes them with values the
  surrounding code keeps in range, except for the one out-of-bounds read
  documented at claim C10, where the model read of a negative index stands
  for the undefined C access.
* Side effects (`tolayer3`, `tolayer5`, `starttimer`, `stoptimer`) are
  reified as an `Act` list returned next to the new state; `printf`
  tracing is dropped.
* The two C loops that are not structurally decreasing (`while` slide in
  `A_input`, `do/while` cascade in `B_input`) are given explicit fuel that
  provably dominates their iteration count, so the embedding computes the
  same result as the C loops.
-/

/-- `WINDOWSIZE` from sr.c line 28. -/
def WINDOWSIZE : Int := 6

/-- `SEQSPACE` from sr.c line 29. -/
def SEQSPACE : Int := 14

/-- `NOTINUSE` from sr.c line 30. -/
def NOTINUSE : Int := -1

/-- `struct pkt` from emulator.h: seqnum, acknum, checksum and a 20-byte
payload (payload bytes modelled as their integer values). -/
structure Pkt where
  seqnum : Int
  acknum : Int
  checksum : Int
  payload : List Int
deriving DecidableEq

/-- `struct msg`: a 20-byte application message. -/
structure Msg where
  data : List Int
deriving DecidableEq

/-- `ComputeChecksum` (sr.c lines 37-48): seqnum + acknum + sum of the
payload bytes.  The checksum field itself is not part of the sum. -/
def ComputeChecksum (p : Pkt) : Int :=
  p.seqnum + p.acknum + p.payload.sum

/-- `IsCorrupted` (sr.c lines 50-56). -/
def IsCorrupted (p : Pkt) : Bool :=
  if p.checksum = ComputeChecksum p then false else true

/-- The four side-effecting collaborator calls the protocol core makes,
reified as data: `tolayer3`, `tolayer5`, `starttimer`, `stoptimer`. -/
inductive Act where
  | toLayer3 (p : Pkt)
  | toLayer5 (payload : List Int)
  | startTimer
  | stopTimer
deriving DecidableEq

/-- The sender-side (A) module state: the statics declared at sr.c
lines 61-67 plus the statistics counters the sender code touches. -/
structure SenderState where
  buffer : Int → Pkt
  windowfirst : Int
  windowlast : Int
  windowcount : Int
  A_nextseqnum : Int
  ack_received : Int → Bool
  timer_active : Int → Bool
  window_full : Int
  total_ACKs_received : Int
  new_ACKs : Int
  packets_resent : Int

/-- The all-zero packet: C statics are zero-initialised, so this is the
content of every `buffer` slot before it is first written. -/
def zeroPkt : Pkt :=
  { seqnum := 0, acknum := 0, checksum := 0, payload := List.replicate 20 0 }

/-- `A_init` (sr.c lines 215-233): the sender state after initialisation. -/
def A_init : SenderState :=
  { buffer := fun _ => zeroPkt
    windowfirst := 0
    windowlast := -1
    windowcount := 0
    A_nextseqnum := 0
    ack_received := fun _ => false
    timer_active := fun _ => false
    window_full := 0
    total_ACKs_received := 0
    new_ACKs := 0
    packets_resent := 0 }

/-- `A_output` (sr.c lines 70-113): if the window is not full, build the
packet, append it at `(windowlast+1) % WINDOWSIZE`, transmit it, start the
timer, mark its slot timer-active and advance the sequence cursor;
otherwise count the window-full event. -/
def A_output (m : Msg) (s : SenderState) : SenderState × List Act :=
  if s.windowcount < WINDOWSIZE then
    let base : Pkt :=
      { seqnum := s.A_nextseqnum, acknum := NOTINUSE, checksum := 0, payload := m.data }
    let sendpkt : Pkt := { base with checksum := ComputeChecksum base }
    let wl := (s.windowlast + 1) % WINDOWSIZE
    ({ s with
        windowlast := wl
        buffer := Function.update s.buffer wl sendpkt
        windowcount := s.windowcount + 1
        ack_received := Function.update s.ack_received sendpkt.seqnum false
        timer_active := Function.update s.timer_active wl true
        A_nextseqnum := (s.A_nextseqnum + 1) % SEQSPACE },
     [Act.toLayer3 sendpkt, Act.startTimer])
  else
    ({ s with window_full := s.window_full + 1 }, [])

/-- The window-membership test of `A_input` (sr.c lines 131-141), computed
from the seqnums stored at `buffer[windowfirst]` and `buffer[windowlast]`. -/
def in_window (s : SenderState) (p : Pkt) : Bool :=
  let seqfirst := (s.buffer s.windowfirst).seqnum
  let seqlast := (s.buffer s.windowlast).seqnum
  if seqfirst ≤ seqlast then
    decide (seqfirst ≤ p.acknum ∧ p.acknum ≤ seqlast)
  else
    decide (seqfirst ≤ p.acknum ∨ p.acknum ≤ seqlast)

/-- Buffer index of window slot `i` counted from `windowfirst`
(`(windowfirst + i) % WINDOWSIZE`, as in the sr.c loops). -/
def slotIdx (s : SenderState) (i : Nat) : Int :=
  (s.windowfirst + (i : Int)) % WINDOWSIZE

/-- The `for` loop of `A_input` (sr.c lines 150-163): scan slots
`windowfirst + i`, `i = 0, 1, ...` (`rem` iterations remain) for the packet
whose seqnum equals the acknum; at the first match set its acknowledged
flag, and if the slot is marked timer-active, stop the timer and clear the
mark, then break. -/
def scanMark (p : Pkt) : Nat → Nat → SenderState → SenderState × List Act
  | _, 0, s => (s, [])
  | i, rem + 1, s =>
    if (s.buffer (slotIdx s i)).seqnum = p.acknum then
      let s1 := { s with ack_received := Function.update s.ack_received p.acknum true }
      if s1.timer_active (slotIdx s i) then
        ({ s1 with timer_active := Function.update s1.timer_active (slotIdx s i) false },
         [Act.stopTimer])
      else
        (s1, [])
    else
      scanMark p (i + 1) rem s

/-- The `while` loop of `A_input` (sr.c lines 166-170): while the window is
nonempty and the base packet is acknowledged, advance `windowfirst` mod
WINDOWSIZE and decrement `windowcount`.  Each iteration decrements
`windowcount`, so fuel `windowcount.toNat` reproduces the C loop exactly. -/
def slideAux : Nat → SenderState → SenderState
  | 0, s => s
  | fuel + 1, s =>
    if 0 < s.windowcount ∧ s.ack_received ((s.buffer s.windowfirst).seqnum) = true then
      slideAux fuel
        { s with
            windowfirst := (s.windowfirst + 1) % WINDOWSIZE
            windowcount := s.windowcount - 1 }
    else
      s

/-- `A_input` (sr.c lines 119-178): drop corrupted ACKs; count uncorrupted
ones; for a new in-window ACK, mark it, possibly stop the timer, and slide
the window base past the acknowledged prefix; otherwise do nothing. -/
def A_input (p : Pkt) (s : SenderState) : SenderState × List Act :=
  if IsCorrupted p then
    (s, [])
  else
    let s0 := { s with total_ACKs_received := s.total_ACKs_received + 1 }
    if in_window s0 p && !s0.ack_received p.acknum then
      let s1 := { s0 with new_ACKs := s0.new_ACKs + 1 }
      let r := scanMark p 0 s1.windowcount.toNat s1
      (slideAux r.1.windowcount.toNat r.1, r.2)
    else
      (s0, [])

/-- The scan of `A_timerinterrupt` (sr.c lines 194-208): first slot from
`windowfirst` (with `rem` loop iterations remaining, starting at offset `i`)
whose packet is not acknowledged. -/
def firstUnackedFrom (s : SenderState) : Nat → Nat → Option Int
  | _, 0 => none
  | i, rem + 1 =>
    if s.ack_received ((s.buffer (slotIdx s i)).seqnum) = true then
      firstUnackedFrom s (i + 1) rem
    else
      some (slotIdx s i)

/-- `A_timerinterrupt` (sr.c lines 181-209): resend the first (oldest)
unacknowledged packet in the window, count it and restart the timer; if
every window slot is acknowledged (or the window is empty) do nothing. -/
def A_timerinterrupt (s : SenderState) : SenderState × List Act :=
  match firstUnackedFrom s 0 s.windowcount.toNat with
  | some idx =>
    ({ s with packets_resent := s.packets_resent + 1 },
     [Act.toLayer3 (s.buffer idx), Act.startTimer])
  | none => (s, [])

/-- The receiver-side (B) module state: the statics declared at sr.c
lines 239-245 plus the `packets_received` statistics counter. -/
structure ReceiverState where
  expectedseqnum : Int
  B_nextseqnum : Int
  recv_buffer : Int → Pkt
  recv_base : Int
  packet_received : Int → Bool
  recv_windowsize : Int
  packets_received : Int

/-- `B_init` (sr.c lines 326-340). -/
def B_init : ReceiverState :=
  { expectedseqnum := 0
    B_nextseqnum := 0
    recv_buffer := fun _ => zeroPkt
    recv_base := 0
    packet_received := fun _ => false
    recv_windowsize := WINDOWSIZE
    packets_received := 0 }

/-- The `do/while` cascade of `B_input` (sr.c lines 280-294): advance
`recv_base` mod SEQSPACE and bump `j`; while the new `recv_base` is marked
received, deliver `recv_buffer[j % recv_windowsize].payload`, clear the
mark and repeat.  Every continuing iteration clears the received-flag at
the new `recv_base`, and `recv_base` ranges over the 14 residues mod
SEQSPACE, so the C loop runs at most 15 iterations; fuel 20 therefore
reproduces it exactly. -/
def cascadeAux : Nat → Int → ReceiverState → ReceiverState × List Act
  | 0, _, s => (s, [])
  | fuel + 1, j, s =>
    let rb := (s.recv_base + 1) % SEQSPACE
    let j1 := j + 1
    let s1 := { s with recv_base := rb }
    if s1.packet_received rb then
      let pl := (s1.recv_buffer (j1 % s1.recv_windowsize)).payload
      let s2 :=
        { s1 with
            packets_received := s1.packets_received + 1
            packet_received := Function.update s1.packet_received rb false }
      let r := cascadeAux fuel j1 s2
      (r.1, Act.toLayer5 pl :: r.2)
    else
      (s1, [])

/-- `B_input` (sr.c lines 248-324): drop corrupted packets silently;
otherwise compute the packet's offset from `recv_base`; if in window, mark
and buffer it, and when it equals `recv_base` deliver it plus the buffered
cascade; finally always send an ACK carrying the packet's own seqnum. -/
def B_input (p : Pkt) (s : ReceiverState) : ReceiverState × List Act :=
  if IsCorrupted p then
    (s, [])
  else
    let rel :=
      if p.seqnum ≥ s.recv_base then p.seqnum - s.recv_base
      else SEQSPACE - s.recv_base + p.seqnum
    let r :=
      if rel < s.recv_windowsize then
        let sb :=
          { s with
              packet_received := Function.update s.packet_received p.seqnum true
              recv_buffer := Function.update s.recv_buffer rel p }
        if p.seqnum = sb.recv_base then
          let sd := { sb with packets_received := sb.packets_received + 1 }
          let c := cascadeAux 20 0 sd
          (c.1, Act.toLayer5 p.payload :: c.2)
        else
          (sb, [])
      else
        (s, [])
    let ackbase : Pkt :=
      { seqnum := r.1.B_nextseqnum, acknum := p.seqnum, checksum := 0,
        payload := List.replicate 20 48 }
    let ackpkt : Pkt := { ackbase with checksum := ComputeChecksum ackbase }
    ({ r.1 with B_nextseqnum := (r.1.B_nextseqnum + 1) % 2 },
     r.2 ++ [Act.toLayer3 ackpkt])

/-- The payloads handed to the application layer (`tolayer5`) within an
action list, in order. -/
def deliveredPayloads (acts : List Act) : List (List Int) :=
  acts.filterMap fun a =>
    match a with
    | Act.toLayer5 pl => some pl
    | _ => none

/-- Feed a list of packets to `B_input` in order, collecting all actions. -/
def B_run (ps : List Pkt) (s : ReceiverState) : ReceiverState × List Act :=
  ps.foldl (fun acc p => let r := B_input p acc.1; (r.1, acc.2 ++ r.2)) (s, [])

/-- A well-formed data packet with seqnum `n` and payload twenty copies of
`n`, checksummed as the sender would. -/
def mkData (n : Int) : Pkt :=
  let base : Pkt := { seqnum := n, acknum := 0, checksum := 0, payload := List.replicate 20 n }
  { base with checksum := ComputeChecksum base }

/-- A well-formed ACK packet with acknum `n` (payload twenty `0` characters,
as B builds them). -/
def mkAck (n : Int) : Pkt :=
  let base : Pkt := { seqnum := 0, acknum := n, checksum := 0, payload := List.replicate 20 48 }
  { base with checksum := ComputeChecksum base }

/-- Sender states reachable from `A_init` by any sequence of `A_output`,
`A_input` and `A_timerinterrupt` calls. -/
inductive Reachable : SenderState → Prop where
  | init : Reachable A_init
  | output (m : Msg) {s : SenderState} : Reachable s → Reachable (A_output m s).1
  | input (p : Pkt) {s : SenderState} : Reachable s → Reachable (A_input p s).1
  | timer {s : SenderState} : Reachable s → Reachable (A_timerinterrupt s).1

/-- The three kinds of events the emulator can dispatch to endpoint A. -/
inductive AEvent where
  | output (m : Msg)
  | input (p : Pkt)
  | timer

/-- Thread the emulator's single-timer state through an action list:
`starttimer` arms the timer (and is a contract violation, counted in the
second component, if the timer is already armed); `stoptimer` disarms it. -/
def applyTimerActions : List Act → Bool → Nat → Bool × Nat
  | [], armed, v => (armed, v)
  | Act.startTimer :: rest, armed, v =>
    applyTimerActions rest true (if armed then v + 1 else v)
  | Act.stopTimer :: rest, _, v => applyTimerActions rest false v
  | _ :: rest, armed, v => applyTimerActions rest armed v

/-- One emulator step for endpoint A, tracking (state, timer-armed,
violation count).  A timer event fires only while the timer is armed and
disarms it before `A_timerinterrupt` runs. -/
def stepAEvent : SenderState × Bool × Nat → AEvent → SenderState × Bool × Nat
  | (s, armed, v), AEvent.output m =>
    let r := A_output m s
    let t := applyTimerActions r.2 armed v
    (r.1, t.1, t.2)
  | (s, armed, v), AEvent.input p =>
    let r := A_input p s
    let t := applyTimerActions r.2 armed v
    (r.1, t.1, t.2)
  | (s, armed, v), AEvent.timer =>
    if armed then
      let r := A_timerinterrupt s
      let t := applyTimerActions r.2 false v
      (r.1, t.1, t.2)
    else
      (s, armed, v)

/-- Run endpoint A from `A_init` (timer disarmed, no violations) over an
event list. -/
def runA (es : List AEvent) : SenderState × Bool × Nat :=
  es.foldl stepAEvent (A_init, false, 0)

/-- The `buffer` indices `A_input` subscripts on an arriving packet: for an
uncorrupted packet, `windowfirst` and `windowlast` (sr.c lines 132-133)
followed by the scan/slide indices `(windowfirst + i) % WINDOWSIZE`,
`i < windowcount` (listing all loop offsets, including those after the
scan's `break`; every one of them is taken mod WINDOWSIZE). -/
def A_input_buffer_indices (s : SenderState) (p : Pkt) : List Int :=
  if IsCorrupted p then []
  else
    [s.windowfirst, s.windowlast] ++
      (List.range s.windowcount.toNat).map (fun i => slotIdx s i)

/-- A fixed 20-byte message used in concrete runs. -/
def msg0 : Msg := { data := List.replicate 20 65 }

/-- A second fixed 20-byte message used in concrete runs. -/
def msg1 : Msg := { data := List.replicate 20 66 }

/-- Sender state after one successful `A_output` from `A_init`: one
outstanding packet (seqnum 0) in slot 0. -/
def sA1 : SenderState := (A_output msg0 A_init).1

/-- Sender state after two successful `A_output` calls from `A_init`:
outstanding packets 0 and 1 in slots 0 and 1. -/
def sA2 : SenderState := (A_output msg1 sA1).1

/-- A corrupted ACK packet: its stored checksum (12345) disagrees with the
recomputed one (0). -/
def badAck : Pkt :=
  { seqnum := 0, acknum := 0, checksum := 12345, payload := List.replicate 20 0 }

/-- A sender state whose window is saturated (`windowcount = WINDOWSIZE`),
used to exercise the window-full branch of `A_output`. -/
def sFull : SenderState := { A_init with windowcount := 6 }

/-- A receiver state with `recv_base = 5` and nothing buffered, used to
exercise the out-of-order delivery path of `B_input`. -/
def sB5 : ReceiverState := { B_init with recv_base := 5 }

/-- Equality of the sender protocol state proper: window buffer, window
indices and count, acknowledgment flags, sequence cursor and timer-tracking
flags (the statistics counters are deliberately not included). -/
def protocolEq (s t : SenderState) : Prop :=
  s.buffer = t.buffer ∧ s.windowfirst = t.windowfirst ∧ s.windowlast = t.windowlast ∧
    s.windowcount = t.windowcount ∧ s.ack_received = t.ack_received ∧
    s.A_nextseqnum = t.A_nextseqnum ∧ s.timer_active = t.timer_active

/-- Structural window invariant of the sender: the outstanding count is
between 0 and WINDOWSIZE, `windowfirst` is a valid buffer index, and
`windowlast` sits `windowcount - 1` slots (mod WINDOWSIZE) after
`windowfirst` (equivalently, one slot before it when the window is empty). -/
def InvShape (s : SenderState) : Prop :=
  0 ≤ s.windowcount ∧ s.windowcount ≤ WINDOWSIZE ∧
    0 ≤ s.windowfirst ∧ s.windowfirst < WINDOWSIZE ∧
    (s.windowcount = 0 → s.windowfirst = (s.windowlast + 1) % WINDOWSIZE) ∧
    (0 < s.windowcount → s.windowlast = (s.windowfirst + s.windowcount - 1) % WINDOWSIZE)

/-- Full sender invariant: the structural shape plus the guarantee that a
nonempty window's base slot holds an unacknowledged packet (the oldest
in-flight one). -/
def SenderInv (s : SenderState) : Prop :=
  InvShape s ∧ (0 < s.windowcount → s.ack_received ((s.buffer s.windowfirst).seqnum) = false)

/-- If every remaining slot is acknowledged, the timer-interrupt scan finds
nothing. -/
theorem firstUnackedFrom_all_acked (s : SenderState) :
    ∀ rem i, (∀ k, k < rem → s.ack_received ((s.buffer (slotIdx s (i + k))).seqnum) = true) →
      firstUnackedFrom s i rem = none := by
  intro rem
  induction rem with
  | zero => intro i _; rfl
  | succ n ih =>
    intro i h
    have h0 : s.ack_received ((s.buffer (slotIdx s i)).seqnum) = true := by
      have := h 0 (Nat.succ_pos n)
      simpa using this
    unfold firstUnackedFrom
    rw [if_pos h0]
    exact ih (i + 1) fun k hk => by
      have := h (k + 1) (Nat.succ_lt_succ hk)
      simpa [Nat.add_assoc, Nat.add_comm 1] using this

/-- The timer-interrupt scan returns the first (offset-least) slot holding
an unacknowledged packet. -/
theorem firstUnackedFrom_first (s : SenderState) :
    ∀ rem d i, d < rem →
      s.ack_received ((s.buffer (slotIdx s (i + d))).seqnum) = false →
      (∀ k, k < d → s.ack_received ((s.buffer (slotIdx s (i + k))).seqnum) = true) →
      firstUnackedFrom s i rem = some (slotIdx s (i + d)) := by
  intro rem
  induction rem with
  | zero => intro d i hd; omega
  | succ n ih =>
    intro d i hd hun hprev
    cases d with
    | zero =>
      unfold firstUnackedFrom
      have h0 : s.ack_received ((s.buffer (slotIdx s i)).seqnum) = false := by simpa using hun
      rw [if_neg (by rw [h0]; exact Bool.false_ne_true)]
      simp
    | succ e =>
      have h0 : s.ack_received ((s.buffer (slotIdx s i)).seqnum) = true := by
        have := hprev 0 (Nat.succ_pos e)
        simpa using this
      unfold firstUnackedFrom
      rw [if_pos h0]
      have := ih e (i + 1) (by omega)
        (by simpa [Nat.add_assoc, Nat.add_comm 1] using hun)
        (fun k hk => by
          have := hprev (k + 1) (Nat.succ_lt_succ hk)
          simpa [Nat.add_assoc, Nat.add_comm 1] using this)
      simpa [Nat.add_assoc, Nat.add_comm 1] using this

/-- The ACK-marking scan touches only the acknowledgment and timer flags:
buffer content, window indices and count are unchanged. -/
theorem scanMark_fields (p : Pkt) : ∀ rem i s,
    (scanMark p i rem s).1.buffer = s.buffer
      ∧ (scanMark p i rem s).1.windowfirst = s.windowfirst
      ∧ (scanMark p i rem s).1.windowlast = s.windowlast
      ∧ (scanMark p i rem s).1.windowcount = s.windowcount := by
  intro rem
  induction rem with
  | zero => intro i s; exact ⟨rfl, rfl, rfl, rfl⟩
  | succ n ih =>
    intro i s
    unfold scanMark
    split
    · dsimp only
      split
      · exact ⟨rfl, rfl, rfl, rfl⟩
      · exact ⟨rfl, rfl, rfl, rfl⟩
    · exact ih (i + 1) s

/-- The slide loop preserves the structural window invariant. -/
theorem slideAux_shape : ∀ fuel s, InvShape s → InvShape (slideAux fuel s) := by
  intro fuel
  induction fuel with
  | zero => intro s hs; exact hs
  | succ n ih =>
    intro s hs
    unfold slideAux
    split
    · rename_i hcond
      obtain ⟨hpos, -⟩ := hcond
      apply ih
      simp only [InvShape, WINDOWSIZE] at hs ⊢
      omega
    · exact hs

/-- The slide loop never touches the buffer, `windowlast` or the
acknowledgment flags. -/
theorem slideAux_frame : ∀ fuel s,
    (slideAux fuel s).buffer = s.buffer
      ∧ (slideAux fuel s).windowlast = s.windowlast
      ∧ (slideAux fuel s).ack_received = s.ack_received := by
  intro fuel
  induction fuel with
  | zero => intro s; exact ⟨rfl, rfl, rfl⟩
  | succ n ih =>
    intro s
    unfold slideAux
    split
    · exact ih _
    · exact ⟨rfl, rfl, rfl⟩

/-- After the slide loop runs with enough fuel (the loop decrements
`windowcount`, so `windowcount.toNat` suffices), either the window is empty
or its base packet is unacknowledged. -/
theorem slideAux_post : ∀ fuel s, s.windowcount.toNat ≤ fuel → 0 ≤ s.windowcount →
    (slideAux fuel s).windowcount = 0
      ∨ (slideAux fuel s).ack_received
          (((slideAux fuel s).buffer (slideAux fuel s).windowfirst).seqnum) = false := by
  intro fuel
  induction fuel with
  | zero =>
    intro s hf h0
    left
    show s.windowcount = 0
    omega
  | succ n ih =>
    intro s hf h0
    unfold slideAux
    split
    · rename_i hcond
      obtain ⟨hpos, -⟩ := hcond
      apply ih
      · show (s.windowcount - 1).toNat ≤ n
        omega
      · show (0 : Int) ≤ s.windowcount - 1
        omega
    · rename_i hcond
      rw [not_and_or] at hcond
      rcases hcond with hc | hc
      · left; omega
      · right
        exact (Bool.not_eq_true _).mp hc

/-- Unfolding of `A_input` on an uncorrupted, in-window, not yet
acknowledged ACK: mark-and-stop-timer scan followed by the slide loop. -/
theorem A_input_newack (p : Pkt) (s : SenderState) (hc : IsCorrupted p = false)
    (hcond : (in_window { s with total_ACKs_received := s.total_ACKs_received + 1 } p &&
        !({ s with total_ACKs_received := s.total_ACKs_received + 1 } : SenderState).ack_received p.acknum) = true) :
    A_input p s =
      (slideAux (scanMark p 0 s.windowcount.toNat
          { s with total_ACKs_received := s.total_ACKs_received + 1,
                   new_ACKs := s.new_ACKs + 1 }).1.windowcount.toNat
        (scanMark p 0 s.windowcount.toNat
          { s with total_ACKs_received := s.total_ACKs_received + 1,
                   new_ACKs := s.new_ACKs + 1 }).1,
       (scanMark p 0 s.windowcount.toNat
          { s with total_ACKs_received := s.total_ACKs_received + 1,
                   new_ACKs := s.new_ACKs + 1 }).2) := by
  unfold A_input
  rw [if_neg (by simp [hc])]
  simp only [hcond, if_true]

/-- `A_output` preserves the sender invariant. -/
theorem A_output_inv (m : Msg) (s : SenderState) (h : SenderInv s) :
    SenderInv (A_output m s).1 := by
  by_cases h6 : s.windowcount < WINDOWSIZE
  · obtain ⟨⟨c1, c2, c3, c4, c5, c6⟩, c7⟩ := h
    unfold A_output
    rw [if_pos h6]
    dsimp only
    constructor
    · simp only [InvShape, WINDOWSIZE] at *
      rcases eq_or_lt_of_le c1 with h0 | h0
      · have h5 := c5 h0.symm
        omega
      · have h6b := c6 h0
        omega
    · intro hpos
      dsimp only at hpos ⊢
      rcases eq_or_lt_of_le c1 with h0 | h0
      · have h5 := c5 h0.symm
        have hwf : (s.windowlast + 1) % WINDOWSIZE = s.windowfirst := h5.symm
        rw [hwf, Function.update_same]
        exact Function.update_same _ _ _
      · have h6b := c6 h0
        have hne : (s.windowlast + 1) % WINDOWSIZE ≠ s.windowfirst := by
          simp only [WINDOWSIZE] at *
          omega
        rw [Function.update_noteq (Ne.symm hne)]
        by_cases heq : (s.buffer s.windowfirst).seqnum = s.A_nextseqnum
        · rw [heq]
          exact Function.update_same _ _ _
        · rw [Function.update_noteq heq]
          exact c7 h0
  · unfold A_output
    rw [if_neg h6]
    exact h

/-- `A_input` preserves the sender invariant. -/
theorem A_input_inv (p : Pkt) (s : SenderState) (h : SenderInv s) :
    SenderInv (A_input p s).1 := by
  by_cases hc : IsCorrupted p
  · unfold A_input
    rw [if_pos hc]
    exact h
  · by_cases hcond : (in_window { s with total_ACKs_received := s.total_ACKs_received + 1 } p &&
        !({ s with total_ACKs_received := s.total_ACKs_received + 1 } : SenderState).ack_received p.acknum) = true
    · rw [A_input_newack p s (by simpa using hc) hcond]
      set R := scanMark p 0 s.windowcount.toNat
        { s with total_ACKs_received := s.total_ACKs_received + 1,
                 new_ACKs := s.new_ACKs + 1 } with hR
      obtain ⟨fb, ff, fl, fc⟩ := scanMark_fields p s.windowcount.toNat 0
        { s with total_ACKs_received := s.total_ACKs_received + 1,
                 new_ACKs := s.new_ACKs + 1 }
      have hshape : InvShape R.1 := by
        simp only [InvShape]
        rw [← hR] at ff fl fc
        rw [ff, fl, fc]
        exact h.1
      refine ⟨slideAux_shape _ _ hshape, ?_⟩
      intro hpos
      have hpost := slideAux_post R.1.windowcount.toNat R.1 (Nat.le_refl _) hshape.1
      rcases hpost with h0 | h0
      · rw [h0] at hpos
        exact absurd hpos (lt_irrefl 0)
      · exact h0
    · unfold A_input
      rw [if_neg hc]
      rw [if_neg (by simpa using hcond)]
      exact h

/-- `A_timerinterrupt` preserves the sender invariant (it only resends and
counts; the protocol fields are untouched). -/
theorem A_timerinterrupt_inv (s : SenderState) (h : SenderInv s) :
    SenderInv (A_timerinterrupt s).1 := by
  unfold A_timerinterrupt
  cases hfu : firstUnackedFrom s 0 s.windowcount.toNat with
  | none => simp only [hfu]; exact h
  | some idx => simp only [hfu]; exact h

/-- Every sender state reachable from `A_init` satisfies the invariant. -/
theorem reachable_inv {s : SenderState} (h : Reachable s) : SenderInv s := by
  induction h with
  | init => exact ⟨⟨by decide, by decide, by decide, by decide, fun _ => by decide,
      fun h0 => absurd h0 (by decide)⟩, fun h0 => absurd h0 (by decide)⟩
  | output m _ ih => exact A_output_inv m _ ih
  | input p _ ih => exact A_input_inv p _ ih
  | timer _ ih => exact A_timerinterrupt_inv _ ih

/-- One cascade iteration that stops: the next sequence number is not
marked received, so only `recv_base` advances. -/
theorem cascadeAux_stop (fuel : Nat) (j : Int) (s : ReceiverState)
    (h : s.packet_received ((s.recv_base + 1) % SEQSPACE) = false) :
    cascadeAux (fuel + 1) j s = ({ s with recv_base := (s.recv_base + 1) % SEQSPACE }, []) := by
  rw [cascadeAux]
  simp [h]

/-- One cascade iteration that delivers: the next sequence number is marked
received, so the slot `(j + 1) % recv_windowsize` of the receive buffer is
delivered, the mark is cleared and the loop continues. -/
theorem cascadeAux_step (fuel : Nat) (j : Int) (s : ReceiverState)
    (h : s.packet_received ((s.recv_base + 1) % SEQSPACE) = true) :
    cascadeAux (fuel + 1) j s =
      ((cascadeAux fuel (j + 1)
          { s with
              recv_base := (s.recv_base + 1) % SEQSPACE
              packets_received := s.packets_received + 1
              packet_received :=
                Function.update s.packet_received ((s.recv_base + 1) % SEQSPACE) false }).1,
        Act.toLayer5
            ((s.recv_buffer ((j + 1) % s.recv_windowsize)).payload) ::
          (cascadeAux fuel (j + 1)
            { s with
                recv_base := (s.recv_base + 1) % SEQSPACE
                packets_received := s.packets_received + 1
                packet_received :=
                  Function.update s.packet_received ((s.recv_base + 1) % SEQSPACE) false }).2) := by
  rw [cascadeAux]
  simp [h]

/-- C1: the claim that `B_input` hands each sequence number's payload to
the application layer at most once fails once sequence numbers wrap: after
the fourteen packets 0..13 arrive in order at a fresh receiver, the
received-flags of already-delivered base packets are still set (`B_input`
never clears the flag of the packet delivered at `recv_base` itself), so
the arrival of packet 13 triggers a cascade over stale flags that delivers
fifteen payloads at once; in total 28 payloads are delivered for 14
packets, and the payload of sequence number 13 (twenty bytes of value 13)
is handed to `tolayer5` three times. -/
theorem C1_duplicate_delivery_on_wraparound :
    (deliveredPayloads (B_run ((List.range 14).map (fun n => mkData (n : Int))) B_init).2).count
        (List.replicate 20 13) = 3
      ∧ (deliveredPayloads
          (B_run ((List.range 14).map (fun n => mkData (n : Int))) B_init).2).length = 28 := by
  decide

/-- C2 counterexample: in the exact scenario of the claim (packet 1 then
packet 0 arriving at a fresh receiver), both payloads are delivered, yet
the received-flag of the slot delivered for sequence number 0 (the
`recv_base` packet itself) is still set afterwards, contradicting the
claim's "clears each delivered slot's received-flag as it is consumed". -/
theorem C2_claim_counterexample :
    deliveredPayloads (B_input (mkData 0) (B_input (mkData 1) B_init).1).2
        = [List.replicate 20 0, List.replicate 20 1]
      ∧ (B_input (mkData 0) (B_input (mkData 1) B_init).1).1.packet_received 0 = true := by
  decide

/-- C2 (amended): for uncorrupted packets with sequence numbers
`recv_base + 1` and `recv_base` (mod N) arriving in that order, with no
further packet buffered at `recv_base + 2`, `B_input` buffers the first
without delivering anything and on the second's arrival delivers both
payloads consecutively in sequence-number order, each being exactly the
payload of the packet that carried that sequence number; it clears the
received-flag of the cascaded slot (`recv_base + 1`) as it is consumed but
leaves the base slot's (`recv_base`) received-flag set. -/
theorem C2_out_of_order_amended (s : ReceiverState) (p1 p2 : Pkt)
    (hw : s.recv_windowsize = WINDOWSIZE)
    (hb0 : 0 ≤ s.recv_base) (hb1 : s.recv_base < SEQSPACE)
    (h1 : p1.seqnum = (s.recv_base + 1) % SEQSPACE)
    (h2 : p2.seqnum = s.recv_base)
    (hc1 : IsCorrupted p1 = false) (hc2 : IsCorrupted p2 = false)
    (hnext : s.packet_received ((s.recv_base + 2) % SEQSPACE) = false) :
    deliveredPayloads (B_input p1 s).2 = []
      ∧ deliveredPayloads (B_input p2 (B_input p1 s).1).2 = [p2.payload, p1.payload]
      ∧ (B_input p2 (B_input p1 s).1).1.packet_received ((s.recv_base + 1) % SEQSPACE) = false
      ∧ (B_input p2 (B_input p1 s).1).1.packet_received s.recv_base = true
      ∧ (B_input p2 (B_input p1 s).1).1.recv_base = (s.recv_base + 2) % SEQSPACE := by
  have hrel1 : (if p1.seqnum ≥ s.recv_base then p1.seqnum - s.recv_base
      else SEQSPACE - s.recv_base + p1.seqnum) = 1 := by
    rw [h1]
    simp only [SEQSPACE] at hb1 ⊢
    split <;> omega
  have hne1 : ¬(p1.seqnum = s.recv_base) := by
    rw [h1]
    simp only [SEQSPACE] at hb1 ⊢
    omega
  have eA1 : (B_input p1 s).1 =
      { s with
          packet_received := Function.update s.packet_received p1.seqnum true
          recv_buffer := Function.update s.recv_buffer 1 p1
          B_nextseqnum := (s.B_nextseqnum + 1) % 2 } := by
    simp only [B_input, hc1, Bool.false_eq_true, if_false, hrel1, hne1, hw]
    norm_num [WINDOWSIZE]
  have eA2 : deliveredPayloads (B_input p1 s).2 = [] := by
    simp only [B_input, hc1, Bool.false_eq_true, if_false, hrel1, hne1, hw]
    norm_num [WINDOWSIZE, deliveredPayloads]
  refine ⟨eA2, ?_⟩
  rw [eA1]
  have hflag1 : Function.update (Function.update s.packet_received p1.seqnum true)
      s.recv_base true ((s.recv_base + 1) % SEQSPACE) = true := by
    rw [Function.update_noteq (by simp only [SEQSPACE] at hb1 ⊢; omega), h1,
      Function.update_same]
  have hflag2 : Function.update (Function.update (Function.update s.packet_received p1.seqnum true)
      s.recv_base true) ((s.recv_base + 1) % SEQSPACE) false
      (((s.recv_base + 1) % SEQSPACE + 1) % SEQSPACE) = false := by
    have hm : (((s.recv_base + 1) % SEQSPACE + 1) % SEQSPACE) = (s.recv_base + 2) % SEQSPACE := by
      simp only [SEQSPACE]
      omega
    rw [hm]
    rw [Function.update_noteq (by simp only [SEQSPACE] at hb1 ⊢; omega),
      Function.update_noteq (by simp only [SEQSPACE] at hb1 ⊢; omega),
      Function.update_noteq (by rw [h1]; simp only [SEQSPACE] at hb1 ⊢; omega)]
    exact hnext
  simp only [B_input, hc2, Bool.false_eq_true, if_false, h2, ge_iff_le, le_refl, if_true,
    sub_self]
  norm_num [hw, WINDOWSIZE]
  rw [show (20 : Nat) = 19 + 1 from rfl, cascadeAux_step]
  · rw [show (19 : Nat) = 18 + 1 from rfl, cascadeAux_stop]
    · refine ⟨?_, ?_, ?_, ?_⟩
      · simp [deliveredPayloads]
      · simp [hflag1]
      · dsimp only
        rw [Function.update_noteq (by simp only [SEQSPACE] at hb1 ⊢; omega),
          Function.update_same]
      · dsimp only
        simp only [SEQSPACE]
        omega
    · simp only []
      exact hflag2
  · simp only []
    exact hflag1

/-- C2 witness: the amended theorem applied at a concrete receiver state
with `recv_base = 5` and the concrete packets with sequence numbers 6 and 5. -/
theorem C2_out_of_order_amended_witness :
    IsCorrupted (mkData 6) = false
      ∧ (deliveredPayloads (B_input (mkData 6) sB5).2 = []
          ∧ deliveredPayloads (B_input (mkData 5) (B_input (mkData 6) sB5).1).2
              = [(mkData 5).payload, (mkData 6).payload]
          ∧ (B_input (mkData 5) (B_input (mkData 6) sB5).1).1.packet_received
              ((sB5.recv_base + 1) % SEQSPACE) = false
          ∧ (B_input (mkData 5) (B_input (mkData 6) sB5).1).1.packet_received
              sB5.recv_base = true
          ∧ (B_input (mkData 5) (B_input (mkData 6) sB5).1).1.recv_base
              = (sB5.recv_base + 2) % SEQSPACE) :=
  ⟨by decide,
    C2_out_of_order_amended sB5 (mkData 6) (mkData 5) rfl (by decide) (by decide) (by decide)
      (by decide) (by decide) (by decide) (by decide)⟩

/-- C3: in every state reachable from `A_init` by `A_output`, `A_input` and
`A_timerinterrupt` calls, the outstanding count satisfies
`0 ≤ windowcount ≤ WINDOWSIZE`, and either the window is empty or the base
slot `buffer[windowfirst]` holds an unacknowledged packet — i.e. the oldest
unacknowledged packet still in flight. -/
theorem C3_sender_window_invariant (s : SenderState) (h : Reachable s) :
    0 ≤ s.windowcount ∧ s.windowcount ≤ WINDOWSIZE
      ∧ (s.windowcount = 0 ∨ s.ack_received ((s.buffer s.windowfirst).seqnum) = false) := by
  obtain ⟨⟨c1, c2, _, _, _, _⟩, c7⟩ := reachable_inv h
  refine ⟨c1, c2, ?_⟩
  rcases eq_or_lt_of_le c1 with h0 | h0
  · exact Or.inl h0.symm
  · exact Or.inr (c7 h0)

/-- C3 witness: the invariant instantiated at the reachable state `A_init`
itself. -/
theorem C3_sender_window_invariant_witness :
    Reachable A_init
      ∧ (0 ≤ A_init.windowcount ∧ A_init.windowcount ≤ WINDOWSIZE
          ∧ (A_init.windowcount = 0
              ∨ A_init.ack_received ((A_init.buffer A_init.windowfirst).seqnum) = false)) :=
  ⟨Reachable.init, C3_sender_window_invariant A_init Reachable.init⟩

/-- C4: an arriving ACK that is corrupted, or whose acknum falls outside
the window span computed at `buffer[windowfirst]`/`buffer[windowlast]`, or
whose acknum is already marked acknowledged, leaves the whole sender
protocol state (buffer, window indices and count, acknowledgment flags,
sequence cursor, timer flags) unchanged and performs no timer action; in
particular a second copy of an already-processed ACK is a no-op. -/
theorem C4_invalid_or_duplicate_ack_no_change (s : SenderState) (p : Pkt)
    (h : IsCorrupted p = true ∨ in_window s p = false ∨ s.ack_received p.acknum = true) :
    protocolEq (A_input p s).1 s ∧ (A_input p s).2 = [] := by
  by_cases hc : IsCorrupted p
  · unfold A_input
    rw [if_pos hc]
    exact ⟨⟨rfl, rfl, rfl, rfl, rfl, rfl, rfl⟩, rfl⟩
  · have hcond : (in_window { s with total_ACKs_received := s.total_ACKs_received + 1 } p &&
        !({ s with total_ACKs_received := s.total_ACKs_received + 1 } : SenderState).ack_received p.acknum) = false := by
      rcases h with h | h | h
      · exact absurd h hc
      · have h2 : in_window { s with total_ACKs_received := s.total_ACKs_received + 1 } p = false := h
        simp [h2]
      · have h2 : ({ s with total_ACKs_received := s.total_ACKs_received + 1 } : SenderState).ack_received p.acknum = true := h
        rw [h2]
        simp
    unfold A_input
    rw [if_neg hc]
    simp only [hcond, Bool.false_eq_true, if_false]
    exact ⟨⟨rfl, rfl, rfl, rfl, rfl, rfl, rfl⟩, trivial⟩

/-- C4 witness: a corrupted ACK arriving at `A_init` changes nothing. -/
theorem C4_invalid_or_duplicate_ack_no_change_witness :
    (IsCorrupted badAck = true ∨ in_window A_init badAck = false
        ∨ A_init.ack_received badAck.acknum = true)
      ∧ (protocolEq (A_input badAck A_init).1 A_init ∧ (A_input badAck A_init).2 = []) :=
  ⟨Or.inl (by decide),
    C4_invalid_or_duplicate_ack_no_change A_init badAck (Or.inl (by decide))⟩

/-- C5: `A_timerinterrupt` retransmits exactly the oldest unacknowledged
packet in the window and restarts the timer: if every window slot is
acknowledged it emits nothing, and if slot offset `d` (from `windowfirst`)
is the least offset holding an unacknowledged packet then its actions are
exactly one `tolayer3` of that packet followed by one `starttimer`. -/
theorem C5_timer_resends_only_oldest (s : SenderState) :
    ((∀ k, k < s.windowcount.toNat →
        s.ack_received ((s.buffer (slotIdx s k)).seqnum) = true) →
      (A_timerinterrupt s).2 = [])
    ∧ (∀ d, d < s.windowcount.toNat →
        s.ack_received ((s.buffer (slotIdx s d)).seqnum) = false →
        (∀ k, k < d → s.ack_received ((s.buffer (slotIdx s k)).seqnum) = true) →
        (A_timerinterrupt s).2
          = [Act.toLayer3 (s.buffer (slotIdx s d)), Act.startTimer]) := by
  constructor
  · intro h
    unfold A_timerinterrupt
    rw [firstUnackedFrom_all_acked s _ 0 (fun k hk => by simpa using h k hk)]
  · intro d hd hun hprev
    unfold A_timerinterrupt
    rw [firstUnackedFrom_first s _ d 0 hd (by simpa using hun)
      (fun k hk => by simpa using hprev k hk)]
    simp

/-- C5 witness: at the state with one outstanding unacknowledged packet
(seqnum 0 in slot 0), the interrupt resends exactly that packet and
restarts the timer. -/
theorem C5_timer_resends_only_oldest_witness :
    (0 : Nat) < sA1.windowcount.toNat
      ∧ sA1.ack_received ((sA1.buffer (slotIdx sA1 0)).seqnum) = false
      ∧ (A_timerinterrupt sA1).2
          = [Act.toLayer3 (sA1.buffer (slotIdx sA1 0)), Act.startTimer] :=
  ⟨by decide, by decide,
    (C5_timer_resends_only_oldest sA1).2 0 (by decide) (by decide)
      (fun k hk => absurd hk (Nat.not_lt_zero k))⟩

/-- C6: the claim that `A_input` restarts the timer when unacknowledged
packets remain after sliding fails: the code never calls `starttimer` from
`A_input`.  Concretely, with packets 0 and 1 outstanding, an uncorrupted
ACK 0 slides the window, leaves packet 1 outstanding and unacknowledged,
and the only timer action performed is `stoptimer` — no restart. -/
theorem C6_no_timer_restart_after_slide :
    (A_input (mkAck 0) sA2).2 = [Act.stopTimer]
      ∧ (A_input (mkAck 0) sA2).1.windowcount = 1
      ∧ (A_input (mkAck 0) sA2).1.ack_received 1 = false
      ∧ Act.startTimer ∉ (A_input (mkAck 0) sA2).2 := by
  decide

/-- C7: the claim that the sender never arms the timer while it is already
armed fails: `A_output` calls `starttimer` on every transmission, not only
when the transmitted packet is the sole outstanding one.  Running two
consecutive `A_output` calls from `A_init` arms the timer at the first and
arms it again — while still armed — at the second (violation count 1);
after a single `A_output` there is no violation. -/
theorem C7_starttimer_while_armed :
    (runA [AEvent.output msg0, AEvent.output msg1]).2.2 = 1
      ∧ (runA [AEvent.output msg0]).2.2 = 0 := by
  decide

/-- C8: an uncorrupted packet whose offset from `recv_base` (mod SEQSPACE)
is at least WINDOWSIZE is acknowledged with its own sequence number as the
acknum, while the receive buffer, the received-flags and `recv_base` are
left unchanged and nothing is delivered to the application layer. -/
theorem C8_out_of_window_packet_acked (s : ReceiverState) (p : Pkt)
    (hc : IsCorrupted p = false)
    (hw : s.recv_windowsize = WINDOWSIZE)
    (hb0 : 0 ≤ s.recv_base) (hb1 : s.recv_base < SEQSPACE)
    (hs0 : 0 ≤ p.seqnum) (hs1 : p.seqnum < SEQSPACE)
    (hrel : WINDOWSIZE ≤ (p.seqnum - s.recv_base) % SEQSPACE) :
    (B_input p s).1.recv_buffer = s.recv_buffer
      ∧ (B_input p s).1.packet_received = s.packet_received
      ∧ (B_input p s).1.recv_base = s.recv_base
      ∧ deliveredPayloads (B_input p s).2 = []
      ∧ ∃ a : Pkt, (B_input p s).2 = [Act.toLayer3 a] ∧ a.acknum = p.seqnum := by
  have hout : ¬((if p.seqnum ≥ s.recv_base then p.seqnum - s.recv_base
      else SEQSPACE - s.recv_base + p.seqnum) < s.recv_windowsize) := by
    rw [hw]
    unfold WINDOWSIZE SEQSPACE at *
    split <;> omega
  unfold B_input
  rw [if_neg (by rw [hc]; exact Bool.false_ne_true)]
  simp only [if_neg hout]
  refine ⟨trivial, trivial, trivial, rfl, ?_⟩
  exact ⟨_, rfl, rfl⟩

/-- C8 witness: packet 7 arriving at a fresh receiver (`recv_base = 0`,
offset 7 ≥ 6) is acknowledged with acknum 7 and nothing else happens. -/
theorem C8_out_of_window_packet_acked_witness :
    WINDOWSIZE ≤ ((mkData 7).seqnum - B_init.recv_base) % SEQSPACE
      ∧ ((B_input (mkData 7) B_init).1.recv_buffer = B_init.recv_buffer
          ∧ (B_input (mkData 7) B_init).1.packet_received = B_init.packet_received
          ∧ (B_input (mkData 7) B_init).1.recv_base = B_init.recv_base
          ∧ deliveredPayloads (B_input (mkData 7) B_init).2 = []
          ∧ ∃ a : Pkt, (B_input (mkData 7) B_init).2 = [Act.toLayer3 a]
              ∧ a.acknum = (mkData 7).seqnum) :=
  ⟨by decide,
    C8_out_of_window_packet_acked B_init (mkData 7) (by decide) rfl (by decide) (by decide)
      (by decide) (by decide) (by decide)⟩

/-- C9: a message submitted while the window already holds WINDOWSIZE
outstanding packets causes no transmission and no timer action, leaves the
buffer, indices, count, acknowledgment flags and sequence cursor unchanged,
and only increments the window-full counter. -/
theorem C9_window_full_backpressure (s : SenderState) (m : Msg)
    (h : s.windowcount = WINDOWSIZE) :
    (A_output m s).1 = { s with window_full := s.window_full + 1 }
      ∧ (A_output m s).2 = [] := by
  unfold A_output
  rw [h]
  simp

/-- C9 witness: the window-full branch exercised at a saturated sender
state. -/
theorem C9_window_full_backpressure_witness :
    sFull.windowcount = WINDOWSIZE
      ∧ ((A_output msg0 sFull).1 = { sFull with window_full := sFull.window_full + 1 }
          ∧ (A_output msg0 sFull).2 = []) :=
  ⟨rfl, C9_window_full_backpressure sFull msg0 rfl⟩

/-- C10: the claim that every `buffer` index used by `A_input` lies in
`[0, WINDOWSIZE)` fails in exactly the case it singles out: when an
uncorrupted ACK arrives before any `A_output`, `A_input` reads
`buffer[windowfirst]` and `buffer[windowlast]` (sr.c lines 132-133) with
`windowlast` still `-1` from `A_init`, an out-of-bounds access. -/
theorem C10_negative_buffer_index :
    A_input_buffer_indices A_init (mkAck 0) = [0, -1]
      ∧ (-1 : Int) ∈ A_input_buffer_indices A_init (mkAck 0)
      ∧ ¬(0 ≤ (-1 : Int) ∧ (-1 : Int) < WINDOWSIZE)
      ∧ IsCorrupted (mkAck 0) = false
      ∧ A_init.windowlast = -1 := by
  decide
